import Mathlib

/-!
Shallow embedding of `src/tap_csv/client.py` (class `CSVStream`).

Modeling conventions:
* Python `list[str]` rows become `List String`; `dict(zip(headers, row))`
  becomes the ordered association list of the zipped pairs (duplicate header
  names, on which no claim turns, would be collapsed by the Python dict).
* The operating-system surface used by the client (`os.path.exists`,
  `os.path.isdir`, `os.listdir`, `os.path.normpath`) and the parsed content
  that `csv.reader` yields for each path are bundled into an explicit `FS`
  value that every operation receives.
* Stream-instance mutation (`self.file_paths`, `self.primary_keys`) becomes
  explicit state passing of a `CSVStream` value.
* `raise Exception(...)` and the latent `NameError` become an `Except Err`
  result; the two `raise` sites of `get_file_paths` carry distinct messages
  and are modeled as distinct `Err` constructors.
* Python `str.lower` / `str.endswith` are modeled character-wise (`pyLower`,
  `pyEndsWith`); the extension literals involved are ASCII.
-/

/-- One parsed CSV line: an ordered list of text fields. -/
abbrev Row := List String

/-- One emitted record: `dict(zip(headers, row))` modeled as the ordered
association list of the zipped (field name, field value) pairs. -/
abbrev Record := List (String × String)

/-- Model of Python `str.lower` (character-wise lowercasing). -/
def pyLower (s : String) : String := ⟨s.data.map Char.toLower⟩

/-- Model of Python `str.endswith`: the candidate suffix's characters are a
suffix of the string's characters. -/
def pyEndsWith (s suff : String) : Bool := suff.data.isSuffixOf s.data

/-- The `file_config` dict entry for this stream: a mandatory `path` plus an
optional `keys` list (`file_config["path"]`, `file_config.get("keys", [])`). -/
structure FileConfig where
  path : String
  keys : Option (List String)
deriving DecidableEq

/-- The operating-system / file-parsing environment: `os.path.exists`,
`os.path.isdir`, `os.listdir`, `os.path.normpath`, and for each path the row
list that `csv.reader(opener(path, "rt"))` would produce. -/
structure FS where
  pathExists : String → Bool
  isdir : String → Bool
  listdir : String → List String
  normpath : String → String
  rows : String → List Row

/-- The mutable state of one `CSVStream` instance: its `name`, its cached
`file_config`, and the two attributes the methods write (`file_paths`,
initially `[]` per the class attribute at client.py line 17, and
`primary_keys`). -/
structure CSVStream where
  name : String
  file_config : FileConfig
  file_paths : List String := []
  primary_keys : List String := []
deriving DecidableEq

/-- The failures the client can raise, one constructor per raise site:
`Exception(f"File path does not exist {file_path}")` (client.py line 52),
`Exception(f"Stream '{name}' has no acceptable files...")` (lines 66-69), and
the latent `NameError` on the unbound `header` local (line 120, flagged by the
TODO at line 119). -/
inductive Err where
  | configurationError (file_path : String)
  | emptyResultError (stream_name : String)
  | nameError
deriving DecidableEq

/-- client.py line 75: the accepted extension list. -/
def supported_extensions : List String :=
  [".csv", ".csv.gz", ".csv.bz2", ".csv.xz", ".csv.lzma"]

/-- client.py lines 73-85, `CSVStream.is_valid_filename`. The boolean result is
paired with the warning messages the method logs on rejection
(`logger.warning` modeled as returned diagnostics). -/
def is_valid_filename (file_path : String) : Bool × List String :=
  let fp := pyLower file_path
  if supported_extensions.any (fun check_ext => pyEndsWith fp check_ext) then
    (true, [])
  else
    (false,
      ["Skipping non-csv file " ++ fp,
       "Please provide a CSV file with any of supported extensions: " ++
         String.intercalate ", " supported_extensions])

/-- client.py lines 54-63: the candidate list built before the emptiness check
of `get_file_paths` (directory branch lists children and filters each joined
path by `is_valid_filename`; file branch filters the configured path alone). -/
def candidate_paths (fs : FS) (self : CSVStream) : List String :=
  let file_path := self.file_config.path
  if fs.isdir file_path then
    let clean_file_path := fs.normpath file_path ++ "/"
    (fs.listdir clean_file_path).filterMap (fun filename =>
      if (is_valid_filename (clean_file_path ++ filename)).1 then
        some (clean_file_path ++ filename)
      else none)
  else
    if (is_valid_filename self.file_config.path).1 then
      [self.file_config.path]
    else []

/-- client.py lines 40-71, `CSVStream.get_file_paths`: return the cached list
when `self.file_paths` is truthy; otherwise check existence, build the
candidate list, raise on emptiness, and cache the result. -/
def get_file_paths (fs : FS) (self : CSVStream) :
    Except Err (List String × CSVStream) :=
  if self.file_paths ≠ [] then
    .ok (self.file_paths, self)
  else if fs.pathExists self.file_config.path = false then
    .error (.configurationError self.file_config.path)
  else if candidate_paths fs self = [] then
    .error (.emptyResultError self.name)
  else
    .ok (candidate_paths fs self,
      { self with file_paths := candidate_paths fs self })

/-- The four `opener` values of client.py lines 90-97 (`gzip.open`, `bz2.open`,
`lzma.open`, builtin `open`). -/
inductive Opener where
  | gzipOpen
  | bz2Open
  | lzmaOpen
  | rawOpen
deriving DecidableEq

/-- client.py lines 90-97: choose the opener from the lowercased path suffix. -/
def selectOpener (file_path : String) : Opener :=
  if pyEndsWith (pyLower file_path) ".gz" then .gzipOpen
  else if pyEndsWith (pyLower file_path) ".bz2" then .bz2Open
  else if pyEndsWith (pyLower file_path) ".xz" ||
      pyEndsWith (pyLower file_path) ".lzma" then .lzmaOpen
  else .rawOpen

/-- client.py lines 87-102, `CSVStream.get_rows`: the opener chosen for the
path together with the parsed rows the environment yields for it. -/
def get_rows (fs : FS) (file_path : String) : Opener × List Row :=
  (selectOpener file_path, fs.rows file_path)

/-- client.py line 38: `dict(zip(headers, row))`, modeled as the ordered
association list of the zipped pairs. -/
def buildRecord (headers row : Row) : Record := headers.zip row

/-- Inner loop of `get_records` (client.py lines 33-38) with the current value
of the `headers` local: an empty `headers` is falsy, so the current row is
bound as the new `headers` and skipped; otherwise the row is zipped against
`headers` into one record. -/
def recordsLoop (headers : Row) : List Row → List Record
  | [] => []
  | row :: rest =>
    if headers = [] then recordsLoop row rest
    else buildRecord headers row :: recordsLoop headers rest

/-- client.py lines 25-38, `CSVStream.get_records`: for each resolved file, run
the header/record loop over its rows; a failure of `get_file_paths`
propagates. The ignored `context` parameter is omitted. -/
def get_records (fs : FS) (self : CSVStream) : Except Err (List Record) :=
  match get_file_paths fs self with
  | .error e => .error e
  | .ok (ps, _) => .ok (ps.flatMap (fun p => recordsLoop [] (get_rows fs p).2))

/-- The declared value type of a schema field: `th.StringType()` is the only
type the client ever declares (client.py line 123); the spec calls it
"text". -/
inductive FieldType where
  | text
deriving DecidableEq

/-- One schema entry: a field name with its declared type. -/
abbrev SchemaField := String × FieldType

/-- client.py lines 104-124, the `schema` property: set `primary_keys` from
`file_config.get("keys", [])`, resolve file paths, take the first row of the
first file as `header`, and declare every header column as text. When the
loops leave `header` unbound (no files would need `get_file_paths` to return
an empty list; no rows in the first file), line 120 raises `NameError`,
modeled as `Err.nameError`. -/
def schema (fs : FS) (self : CSVStream) :
    Except Err (List SchemaField × CSVStream) :=
  match get_file_paths fs
      { self with primary_keys := self.file_config.keys.getD [] } with
  | .error e => .error e
  | .ok (ps, self2) =>
    match ps with
    | [] => .error .nameError
    | p :: _ =>
      match (get_rows fs p).2 with
      | [] => .error .nameError
      | header :: _ =>
        .ok (header.map (fun column => (column, FieldType.text)), self2)

/-- Spec-side reading of claim C1, following its words: the FIRST row of a file
is its header, and every subsequent row is zipped against it. -/
def specRecordsFirstRow : List Row → List Record
  | [] => []
  | header :: rest => rest.map (fun row => header.zip row)

/-- The header a file actually gets under the code's `if not headers` test: the
first non-empty row (leading empty rows only rebind the still-empty
`headers` local). -/
def headerOf (rows : List Row) : Row :=
  (rows.dropWhile List.isEmpty).headD []

/-- Amended spec for record production: leading empty rows are skipped, the
first non-empty row becomes the header, and every row after it yields one
zipped record. -/
def specRecordsAmended (rows : List Row) : List Record :=
  specRecordsFirstRow (rows.dropWhile List.isEmpty)

/-! Helper lemmas. -/

/-- The first projection of a zip is the left list truncated to the right
list's length. -/
lemma zipFst_take {α β : Type} :
    ∀ (l1 : List α) (l2 : List β), (l1.zip l2).map Prod.fst = l1.take l2.length
  | [], _ => by simp
  | _ :: _, [] => by simp
  | a :: l1, b :: l2 => by simp [zipFst_take l1 l2]

/-- The second projection of a zip is the right list truncated to the left
list's length. -/
lemma zipSnd_take {α β : Type} :
    ∀ (l1 : List α) (l2 : List β), (l1.zip l2).map Prod.snd = l2.take l1.length
  | [], _ => by simp
  | _ :: _, [] => by simp
  | a :: l1, b :: l2 => by simp [zipSnd_take l1 l2]

/-- The first projection of a zip is the left list truncated to the zip's own
length. -/
lemma zipFst_take_self {α β : Type} :
    ∀ (l1 : List α) (l2 : List β),
      (l1.zip l2).map Prod.fst = l1.take (l1.zip l2).length
  | [], _ => by simp
  | _ :: _, [] => by simp
  | a :: l1, b :: l2 => by simp [zipFst_take_self l1 l2]

/-- A zip has the length of the shorter operand. -/
lemma zip_length_min {α β : Type} :
    ∀ (l1 : List α) (l2 : List β),
      (l1.zip l2).length = min l1.length l2.length
  | [], _ => by simp
  | _ :: _, [] => by simp
  | a :: l1, b :: l2 => by
    simp [zip_length_min l1 l2, Nat.succ_min_succ]

/-- Once `headers` is non-empty it never changes, and every remaining row
yields exactly one zipped record. -/
lemma recordsLoop_of_ne (headers : Row) (hne : headers ≠ []) (rows : List Row) :
    recordsLoop headers rows = rows.map (fun row => buildRecord headers row) := by
  induction rows with
  | nil => rfl
  | cons row rest ih => simp [recordsLoop, hne, ih]

/-- The record loop started with the empty (falsy) `headers` local computes the
amended spec: leading empty rows are skipped, the first non-empty row becomes
the header, every later row yields one record. -/
lemma recordsLoop_eq_specAmended (rows : List Row) :
    recordsLoop [] rows = specRecordsAmended rows := by
  induction rows with
  | nil => rfl
  | cons row rest ih =>
    by_cases hrow : row = []
    · subst hrow
      simpa [recordsLoop, specRecordsAmended, List.dropWhile] using ih
    · have hr : recordsLoop ([] : Row) (row :: rest) = recordsLoop row rest := by
        simp [recordsLoop]
      have hempty : row.isEmpty = false := by
        cases row with
        | nil => exact absurd rfl hrow
        | cons a t => rfl
      rw [hr, recordsLoop_of_ne row hrow rest]
      simp [specRecordsAmended, specRecordsFirstRow, List.dropWhile, hempty,
        buildRecord]

/-- Every record the loop emits for one file is keyed by a prefix (realized as
a `take`) of that file's own header. -/
lemma recordsLoop_keys {rows : List Row} {rec : Record}
    (h : rec ∈ recordsLoop [] rows) :
    rec.map Prod.fst = (headerOf rows).take rec.length := by
  rw [recordsLoop_eq_specAmended] at h
  unfold specRecordsAmended at h
  unfold headerOf
  cases hdrop : rows.dropWhile List.isEmpty with
  | nil => rw [hdrop] at h; simp [specRecordsFirstRow] at h
  | cons header rest =>
    rw [hdrop] at h
    unfold specRecordsFirstRow at h
    rw [List.mem_map] at h
    obtain ⟨row, hmem, hzip⟩ := h
    rw [← hzip]
    simpa using zipFst_take_self header row

/-- Structural facts about a successful `get_file_paths` call: the result is
cached in the returned state, is non-empty, and no other attribute of the
stream changed. -/
lemma get_file_paths_ok_state {fs : FS} {s s' : CSVStream} {ps : List String}
    (h : get_file_paths fs s = Except.ok (ps, s')) :
    s'.file_paths = ps ∧ ps ≠ [] ∧ s'.name = s.name ∧
    s'.file_config = s.file_config ∧ s'.primary_keys = s.primary_keys := by
  unfold get_file_paths at h
  by_cases h1 : s.file_paths ≠ []
  · rw [if_pos h1] at h
    obtain ⟨hps, hs⟩ : s.file_paths = ps ∧ s = s' := by simpa using h
    subst hs
    exact ⟨hps, hps ▸ h1, rfl, rfl, rfl⟩
  · rw [if_neg h1] at h
    by_cases h2 : fs.pathExists s.file_config.path = false
    · rw [if_pos h2] at h; cases h
    · rw [if_neg h2] at h
      by_cases h3 : candidate_paths fs s = []
      · rw [if_pos h3] at h; cases h
      · rw [if_neg h3] at h
        obtain ⟨hps, hs⟩ :
            candidate_paths fs s = ps ∧
              { s with file_paths := candidate_paths fs s } = s' := by
          simpa using h
        subst hs
        exact ⟨hps, hps ▸ h3, rfl, rfl, rfl⟩

/-- Two strings neither of which is a character-suffix of the other cannot both
be suffixes of the same string. -/
lemma pyEndsWith_excl {s a b : String}
    (hab : ¬(a.data <:+ b.data)) (hba : ¬(b.data <:+ a.data))
    (h : pyEndsWith s a = true) : pyEndsWith s b = false := by
  unfold pyEndsWith at *
  rw [List.isSuffixOf_iff_suffix] at h
  cases hsb : b.data.isSuffixOf s.data with
  | false => rfl
  | true =>
    rw [List.isSuffixOf_iff_suffix] at hsb
    rcases List.suffix_or_suffix_of_suffix h hsb with hc | hc
    · exact absurd hc hab
    · exact absurd hc hba

/-! Concrete environments used by counterexamples and witnesses. -/

/-- Environment with one resolvable file `a.csv` whose first parsed row is the
empty row a blank leading line produces. -/
def fsC1 : FS :=
  { pathExists := fun _ => true
    isdir := fun _ => false
    listdir := fun _ => []
    normpath := fun p => p
    rows := fun p => if p = "a.csv" then [[], ["a"], ["1"]] else [] }

/-- Stream configured on the single file `a.csv`. -/
def stC1 : CSVStream := { name := "s1", file_config := { path := "a.csv", keys := none } }

/-- Environment for the error-mode witnesses: no path exists. -/
def fsC3a : FS :=
  { pathExists := fun _ => false
    isdir := fun _ => false
    listdir := fun _ => []
    normpath := fun p => p
    rows := fun _ => [] }

/-- Stream configured on the nonexistent path `missing.csv`. -/
def stC3a : CSVStream :=
  { name := "s3a", file_config := { path := "missing.csv", keys := none } }

/-- Environment where the configured path exists but is a non-CSV file. -/
def fsC3b : FS :=
  { pathExists := fun _ => true
    isdir := fun _ => false
    listdir := fun _ => []
    normpath := fun p => p
    rows := fun _ => [] }

/-- Stream configured on the existing but non-qualifying file `notes.txt`. -/
def stC3b : CSVStream :=
  { name := "s3b", file_config := { path := "notes.txt", keys := none } }

/-- Directory environment listing one matching file. -/
def fsC5a : FS :=
  { pathExists := fun _ => true
    isdir := fun _ => true
    listdir := fun _ => ["a.csv"]
    normpath := fun p => p
    rows := fun _ => [] }

/-- The same directory after a second matching file `b.csv` was added. -/
def fsC5b : FS :=
  { pathExists := fun _ => true
    isdir := fun _ => true
    listdir := fun _ => ["a.csv", "b.csv"]
    normpath := fun p => p
    rows := fun _ => [] }

/-- Stream configured on the directory `d`. -/
def stC5 : CSVStream := { name := "s5", file_config := { path := "d", keys := none } }

/-- Environment with one file `a.csv` holding a header and one data row. -/
def fsC6 : FS :=
  { pathExists := fun _ => true
    isdir := fun _ => false
    listdir := fun _ => []
    normpath := fun p => p
    rows := fun p => if p = "a.csv" then [["id", "name"], ["1", "Ann"]] else [] }

/-- Stream on `a.csv` with a configured `keys` entry. -/
def stC6 : CSVStream :=
  { name := "s6", file_config := { path := "a.csv", keys := some ["id"] } }

/-- Directory environment with two files carrying different headers. -/
def fsC7 : FS :=
  { pathExists := fun _ => true
    isdir := fun _ => true
    listdir := fun _ => ["a.csv", "b.csv"]
    normpath := fun p => p
    rows := fun p =>
      if p = "d/a.csv" then [["id", "name"], ["1", "Ann"]]
      else if p = "d/b.csv" then [["sku", "qty"], ["s1", "2"]]
      else [] }

/-- Stream configured on the directory `d` holding the two files. -/
def stC7 : CSVStream := { name := "s7", file_config := { path := "d", keys := none } }

/-- Environment with one resolvable file that yields zero rows. -/
def fsC9 : FS :=
  { pathExists := fun _ => true
    isdir := fun _ => false
    listdir := fun _ => []
    normpath := fun p => p
    rows := fun _ => [] }

/-- Stream configured on the empty file `a.csv`. -/
def stC9 : CSVStream := { name := "s9", file_config := { path := "a.csv", keys := none } }

/-- Directory environment whose entry `data.csv` is itself a directory. -/
def fsC10 : FS :=
  { pathExists := fun _ => true
    isdir := fun _ => true
    listdir := fun _ => ["data.csv", "x.txt"]
    normpath := fun p => p
    rows := fun _ => [] }

/-- Stream configured on the directory `d` containing the subdirectory. -/
def stC10 : CSVStream := { name := "s10", file_config := { path := "d", keys := none } }

/-! Claim theorems. -/

/-- C1 counterexample: in environment `fsC1` the file `a.csv` parses to the
rows `[[], ["a"], ["1"]]` (a blank leading line). The claim says the FIRST
row produced, here the empty row `[]`, becomes the header and every
subsequent row yields one zipped record, which would give the two records
`specRecordsFirstRow` computes: `[[], []]`. The code instead leaves the falsy
`headers` local empty, later binds `["a"]` as the header, and emits the single
record `[("a", "1")]`. -/
theorem get_records_first_row_cex :
    get_file_paths fsC1 stC1 =
      Except.ok (["a.csv"], { stC1 with file_paths := ["a.csv"] }) ∧
    fsC1.rows "a.csv" = [[], ["a"], ["1"]] ∧
    get_records fsC1 stC1 = Except.ok [[("a", "1")]] ∧
    specRecordsFirstRow [[], ["a"], ["1"]] = [[], []] ∧
    ([[("a", "1")]] : List Record) ≠ [[], []] :=
  ⟨rfl, rfl, rfl, rfl, by decide⟩

/-- C1 (amended): for every file path yielded by file resolution, get_records
treats the first NON-EMPTY Row produced by the row reader for that file as
that file's Header (leading empty Rows are skipped and yield no Record), and
for every Row after the Header builds exactly one Record by zipping that Row
against that Header, yielding Records in row order and files in list
order. -/
theorem get_records_header_first_nonempty (fs : FS) (s s' : CSVStream)
    (ps : List String) (h : get_file_paths fs s = Except.ok (ps, s')) :
    get_records fs s =
      Except.ok (ps.flatMap (fun p => specRecordsAmended ((get_rows fs p).2))) := by
  unfold get_records
  rw [h]
  simp only [recordsLoop_eq_specAmended]

/-- C1 witness: the amended theorem applied to the concrete environment of the
counterexample. -/
theorem get_records_header_first_nonempty_w :
    get_records fsC1 stC1 =
      Except.ok
        ((["a.csv"] : List String).flatMap
          (fun p => specRecordsAmended ((get_rows fsC1 p).2))) :=
  get_records_header_first_nonempty fsC1 stC1
    { stC1 with file_paths := ["a.csv"] } ["a.csv"] rfl

/-- C2: the record built from a header and a data row pairs fields
positionally and stops at the shorter sequence: its keys are the header
truncated to the row's length (a shorter row drops the trailing header
names), its values are the row truncated to the header's length (a longer
row's extra trailing values are dropped), and its length is the minimum of
the two lengths. `buildRecord` is total, so no error is raised in either
case. -/
theorem record_pairs_truncate (headers row : Row) :
    (buildRecord headers row).map Prod.fst = headers.take row.length ∧
    (buildRecord headers row).map Prod.snd = row.take headers.length ∧
    (buildRecord headers row).length = min headers.length row.length :=
  ⟨zipFst_take headers row, zipSnd_take headers row, zip_length_min headers row⟩

/-- C3: on an uncached stream, file resolution fails with
`Err.configurationError` (the raise at client.py line 52) whenever the
configured path does not exist — note `get_file_paths` never touches
`fs.rows`, so no file is opened — and with the distinct
`Err.emptyResultError` (the raise at lines 66-69) whenever the path exists
but the filtered candidate list is empty. -/
theorem get_file_paths_failure_modes (fs : FS) (s : CSVStream)
    (h0 : s.file_paths = []) :
    (fs.pathExists s.file_config.path = false →
      get_file_paths fs s = Except.error (Err.configurationError s.file_config.path)) ∧
    (fs.pathExists s.file_config.path = true → candidate_paths fs s = [] →
      get_file_paths fs s = Except.error (Err.emptyResultError s.name)) := by
  constructor
  · intro hex
    unfold get_file_paths
    simp [h0, hex]
  · intro hex hcand
    unfold get_file_paths
    simp [h0, hex, hcand]

/-- C3 witness: the two failure modes at concrete inputs. -/
theorem get_file_paths_failure_modes_w :
    get_file_paths fsC3a stC3a =
      Except.error (Err.configurationError "missing.csv") ∧
    get_file_paths fsC3b stC3b = Except.error (Err.emptyResultError "s3b") :=
  ⟨(get_file_paths_failure_modes fsC3a stC3a rfl).1 rfl,
   (get_file_paths_failure_modes fsC3b stC3b rfl).2 rfl rfl⟩

/-- C4: the filename filter accepts a path if and only if its lowercased form
ends with one of exactly the five supported extensions, and it emits warning
diagnostics exactly when it rejects (returning normally in both cases, so a
rejection is never a failure by itself). -/
theorem is_valid_filename_accepts_iff (file_path : String) :
    ((is_valid_filename file_path).1 = true ↔
      (pyEndsWith (pyLower file_path) ".csv" = true ∨
       pyEndsWith (pyLower file_path) ".csv.gz" = true ∨
       pyEndsWith (pyLower file_path) ".csv.bz2" = true ∨
       pyEndsWith (pyLower file_path) ".csv.xz" = true ∨
       pyEndsWith (pyLower file_path) ".csv.lzma" = true)) ∧
    ((is_valid_filename file_path).2 = [] ↔ (is_valid_filename file_path).1 = true) := by
  have hany :
      (supported_extensions.any
          (fun check_ext => pyEndsWith (pyLower file_path) check_ext) = true) ↔
        (pyEndsWith (pyLower file_path) ".csv" = true ∨
         pyEndsWith (pyLower file_path) ".csv.gz" = true ∨
         pyEndsWith (pyLower file_path) ".csv.bz2" = true ∨
         pyEndsWith (pyLower file_path) ".csv.xz" = true ∨
         pyEndsWith (pyLower file_path) ".csv.lzma" = true) := by
    simp [supported_extensions]
  cases hc : supported_extensions.any
      (fun check_ext => pyEndsWith (pyLower file_path) check_ext) with
  | true =>
    have hv : is_valid_filename file_path = (true, []) := by
      simp [is_valid_filename, hc]
    rw [hv]
    constructor
    · simpa using hany.mp hc
    · simp
  | false =>
    have h1 : (is_valid_filename file_path).1 = false := by
      simp [is_valid_filename, hc]
    have h2 : (is_valid_filename file_path).2 ≠ [] := by
      simp [is_valid_filename, hc]
    constructor
    · rw [h1]
      simp only [Bool.false_eq_true, false_iff]
      intro hdisj
      exact absurd (hany.mpr hdisj) (by simp [hc])
    · simp [h1, h2]

/-- C5: file resolution is memoized per stream instance: after any successful
call, a repeated call on the returned state gives the same list and state
back for EVERY environment, in particular one where new matching files have
appeared. -/
theorem get_file_paths_memoized (fs fs2 : FS) (s s' : CSVStream)
    (ps : List String) (h : get_file_paths fs s = Except.ok (ps, s')) :
    get_file_paths fs2 s' = Except.ok (ps, s') := by
  obtain ⟨hfp, hne, -, -, -⟩ := get_file_paths_ok_state h
  have hcached : s'.file_paths ≠ [] := by rw [hfp]; exact hne
  unfold get_file_paths
  rw [if_pos hcached, hfp]

/-- C5 witness: resolve against a directory listing one file, then call again
against the same directory after `b.csv` appeared; the cached single-file
list is returned unchanged. -/
theorem get_file_paths_memoized_w :
    get_file_paths fsC5b { stC5 with file_paths := ["d/a.csv"] } =
      Except.ok (["d/a.csv"], { stC5 with file_paths := ["d/a.csv"] }) :=
  get_file_paths_memoized fsC5a fsC5b stC5
    { stC5 with file_paths := ["d/a.csv"] } ["d/a.csv"] rfl

/-- C6: when file resolution (run on the state whose `primary_keys` were just
set from `file_config.keys`, defaulting to `[]`) yields a first file whose
row list starts with `header`, the schema is exactly one text-typed
`SchemaField` per header column in header order — it depends on nothing but
that first row of that first file — and the returned state's `primary_keys`
are the configured keys. -/
theorem schema_first_header_text (fs : FS) (s s' : CSVStream) (p : String)
    (ps : List String) (header : Row) (rest : List Row)
    (h1 : get_file_paths fs
        { s with primary_keys := s.file_config.keys.getD [] } =
      Except.ok (p :: ps, s'))
    (h2 : fs.rows p = header :: rest) :
    schema fs s =
      Except.ok (header.map (fun column => (column, FieldType.text)), s') ∧
    s'.primary_keys = s.file_config.keys.getD [] := by
  constructor
  · unfold schema
    rw [h1]
    simp only [get_rows]
    rw [h2]
  · exact (get_file_paths_ok_state h1).2.2.2.2

/-- C6 witness: a file with header `id,name` and configured keys `["id"]`. -/
theorem schema_first_header_text_w :
    schema fsC6 stC6 =
      Except.ok
        (List.map (fun column => (column, FieldType.text)) ["id", "name"],
          { stC6 with file_paths := ["a.csv"], primary_keys := ["id"] }) :=
  (schema_first_header_text fsC6 stC6
    { stC6 with file_paths := ["a.csv"], primary_keys := ["id"] }
    "a.csv" [] ["id", "name"] [["1", "Ann"]] rfl rfl).1

/-- C7: the records stream is the in-order concatenation of each resolved
file's own record list, and every record emitted for a file is keyed by a
prefix of that file's own header (`headerOf` of that file's rows), so no
record ever mixes field names from two different files' headers. -/
theorem records_keyed_per_file (fs : FS) (s s' : CSVStream)
    (ps : List String) (h : get_file_paths fs s = Except.ok (ps, s')) :
    get_records fs s =
      Except.ok (ps.flatMap (fun p => recordsLoop [] (fs.rows p))) ∧
    ∀ p rec, rec ∈ recordsLoop [] (fs.rows p) →
      rec.map Prod.fst = (headerOf (fs.rows p)).take rec.length := by
  constructor
  · unfold get_records
    rw [h]
    simp [get_rows]
  · intro p rec hrec
    exact recordsLoop_keys hrec

/-- C7 witness: two files under `d` with headers `[id,name]` and `[sku,qty]`;
the stream is their per-file record lists concatenated. -/
theorem records_keyed_per_file_w :
    get_records fsC7 stC7 =
      Except.ok
        ((["d/a.csv", "d/b.csv"] : List String).flatMap
          (fun p => recordsLoop [] (fsC7.rows p))) :=
  (records_keyed_per_file fsC7 stC7
    { stC7 with file_paths := ["d/a.csv", "d/b.csv"] }
    ["d/a.csv", "d/b.csv"] rfl).1

/-- C8: the decompression strategy is chosen solely from the lowercased path
suffix: `.gz` selects the gzip opener, `.bz2` the bzip2 opener, `.xz` or
`.lzma` the LZMA opener, and any other path the raw builtin opener. -/
theorem selectOpener_by_suffix (file_path : String) :
    (selectOpener file_path = Opener.gzipOpen ↔
      pyEndsWith (pyLower file_path) ".gz" = true) ∧
    (selectOpener file_path = Opener.bz2Open ↔
      pyEndsWith (pyLower file_path) ".bz2" = true) ∧
    (selectOpener file_path = Opener.lzmaOpen ↔
      (pyEndsWith (pyLower file_path) ".xz" = true ∨
       pyEndsWith (pyLower file_path) ".lzma" = true)) ∧
    (selectOpener file_path = Opener.rawOpen ↔
      (pyEndsWith (pyLower file_path) ".gz" = false ∧
       pyEndsWith (pyLower file_path) ".bz2" = false ∧
       pyEndsWith (pyLower file_path) ".xz" = false ∧
       pyEndsWith (pyLower file_path) ".lzma" = false)) := by
  have egb :
      pyEndsWith (pyLower file_path) ".gz" = true →
        pyEndsWith (pyLower file_path) ".bz2" = false :=
    pyEndsWith_excl (by decide) (by decide)
  have egx :
      pyEndsWith (pyLower file_path) ".gz" = true →
        pyEndsWith (pyLower file_path) ".xz" = false :=
    pyEndsWith_excl (by decide) (by decide)
  have egl :
      pyEndsWith (pyLower file_path) ".gz" = true →
        pyEndsWith (pyLower file_path) ".lzma" = false :=
    pyEndsWith_excl (by decide) (by decide)
  have ebx :
      pyEndsWith (pyLower file_path) ".bz2" = true →
        pyEndsWith (pyLower file_path) ".xz" = false :=
    pyEndsWith_excl (by decide) (by decide)
  have ebl :
      pyEndsWith (pyLower file_path) ".bz2" = true →
        pyEndsWith (pyLower file_path) ".lzma" = false :=
    pyEndsWith_excl (by decide) (by decide)
  unfold selectOpener
  cases h1 : pyEndsWith (pyLower file_path) ".gz" with
  | true => simp [h1, egb h1, egx h1, egl h1]
  | false =>
    cases h2 : pyEndsWith (pyLower file_path) ".bz2" with
    | true => simp [h1, h2, ebx h2, ebl h2]
    | false =>
      cases h3 : pyEndsWith (pyLower file_path) ".xz" with
      | true => simp [h1, h2, h3]
      | false =>
        cases h4 : pyEndsWith (pyLower file_path) ".lzma" with
        | true => simp [h1, h2, h3, h4]
        | false => simp [h1, h2, h3, h4]

/-- C9: when the first resolved file yields zero rows, the `header` loop
variable of the `schema` property is never bound and evaluation fails with
the modeled unbound-variable error (`Err.nameError`), so no schema — empty
or otherwise — is returned. -/
theorem schema_empty_first_file_nameError (fs : FS) (s s' : CSVStream)
    (p : String) (ps : List String)
    (h1 : get_file_paths fs
        { s with primary_keys := s.file_config.keys.getD [] } =
      Except.ok (p :: ps, s'))
    (h2 : fs.rows p = []) :
    schema fs s = Except.error Err.nameError := by
  unfold schema
  rw [h1]
  simp only [get_rows]
  rw [h2]

/-- C9 witness: one resolvable file with no rows at all. -/
theorem schema_empty_first_file_nameError_w :
    schema fsC9 stC9 = Except.error Err.nameError :=
  schema_empty_first_file_nameError fsC9 stC9
    { stC9 with file_paths := ["a.csv"] } "a.csv" [] rfl rfl

/-- C10: a directory entry is filtered only by the name-based extension
predicate, never by whether it is a regular file: an entry that passes
`is_valid_filename` is included in the resolved list even when the entry is
itself a directory (the final hypothesis, that the entry is one, is
deliberately unused, because the code never consults `isdir` on
children). -/
theorem get_file_paths_includes_dir_entry (fs : FS) (s : CSVStream)
    (e : String) (h0 : s.file_paths = [])
    (h1 : fs.pathExists s.file_config.path = true)
    (h2 : fs.isdir s.file_config.path = true)
    (h3 : e ∈ fs.listdir (fs.normpath s.file_config.path ++ "/"))
    (h4 : (is_valid_filename (fs.normpath s.file_config.path ++ "/" ++ e)).1 = true)
    (_h5 : fs.isdir (fs.normpath s.file_config.path ++ "/" ++ e) = true) :
    get_file_paths fs s =
      Except.ok (candidate_paths fs s,
        { s with file_paths := candidate_paths fs s }) ∧
    (fs.normpath s.file_config.path ++ "/" ++ e) ∈ candidate_paths fs s := by
  have hmem : (fs.normpath s.file_config.path ++ "/" ++ e) ∈ candidate_paths fs s := by
    unfold candidate_paths
    rw [if_pos h2]
    rw [List.mem_filterMap]
    exact ⟨e, h3, by rw [if_pos h4]⟩
  refine ⟨?_, hmem⟩
  have hne : candidate_paths fs s ≠ [] := List.ne_nil_of_mem hmem
  unfold get_file_paths
  simp [h0, h1, hne]

/-- C10 witness: the directory `d` contains an entry `data.csv` that is itself
a directory; it is nevertheless resolved. -/
theorem get_file_paths_includes_dir_entry_w :
    get_file_paths fsC10 stC10 =
      Except.ok (["d/data.csv"], { stC10 with file_paths := ["d/data.csv"] }) ∧
    "d/data.csv" ∈ (["d/data.csv"] : List String) :=
  get_file_paths_includes_dir_entry fsC10 stC10 "data.csv" rfl rfl rfl
    (by decide) (by decide) rfl
